import Mathlib

/-!
Verification development for the Remediation and Rollback Orchestrator of the
Self-Healing-Infrastructure-Monitor repository.

The definitions below are a shallow embedding of
`src/mcp_server/tools/remediation.py` (class RemediationTool),
`src/mcp_server/tools/rollback.py` (class RollbackTool),
`src/mcp_server/config.py` (RemediationConfig, RollbackConfig defaults) and the
tool-routing part of `src/mcp_server/server.py`.

Modelling conventions:
- Wall-clock time is an abstract integer `now` passed to every operation
  (the Python code reads `datetime.utcnow()`); identifiers derived from
  timestamps become `"REM-" ++ toString now` and so on.  For the snapshot
  store the unit of `now` is a day, matching `timedelta(days=...)`.
- A JSON argument dict is an association list of string keys and values.
- The bodies of the seven mock action handlers (`_restart_service`, ...) are
  external-collaborator behaviour: they are abstracted into a `Handler`
  oracle giving, per invocation, either a returned result dict or a raised
  exception message (the `except Exception` branch of `execute`).  The
  orchestrator-level control flow around the handlers is embedded exactly.
- Python dict mutation of a record aliased from `remediation_history` is
  embedded as an in-place update of the first list entry with that id.
- Constant mock payloads (the `details` sub-dicts of handler results and of
  the read-only rollback branches) carry no orchestrator state and are not
  modelled field by field.
-/

namespace SHIM

/-- A JSON-style argument mapping, as passed to `execute`: an association
list of string keys to string values.  Lookup returns the first binding,
like a Python dict access. -/
abbrev Arguments := List (String × String)

/-- First-match lookup in an argument mapping (Python `args.get(key)`). -/
def lookupArg (args : Arguments) (key : String) : Option String :=
  match args with
  | [] => none
  | (k, v) :: rest => if k == key then some v else lookupArg rest key

/-- One step of Python `str.replace`: fuel-indexed so that it reduces in the
kernel.  Replaces every occurrence of `pat` by `rep`, scanning left to
right, exactly like CPython `str.replace` with no count argument. -/
def pyReplaceAux (pat rep : List Char) : Nat → List Char → List Char
  | 0, l => l
  | _ + 1, [] => []
  | n + 1, c :: cs =>
    if pat ≠ [] ∧ pat.isPrefixOf (c :: cs) then
      rep ++ pyReplaceAux pat rep n ((c :: cs).drop pat.length)
    else
      c :: pyReplaceAux pat rep n cs

/-- Python `s.replace(pat, rep)` on strings.  Used by the source at
`remediation.py:242` to strip the `remediate_` prefix from a tool name. -/
def pyReplace (s pat rep : String) : String :=
  (pyReplaceAux pat.toList rep.toList s.toList.length s.toList).asString

/-- A single-quote character as a string (used inside source message
strings). -/
def squote : String := String.singleton (Char.ofNat 39)

/-- Python `str(x)` on an optional string: `None` prints as the string
`"None"` inside an f-string. -/
def pyStr (o : Option String) : String :=
  match o with
  | some s => s
  | none => "None"

/-- The result dict returned by `RemediationTool.execute` and by the
approval / rejection entry points.  Absent keys are `none`. -/
structure ExecResult where
  status : String
  message : Option String := none
  reason : Option String := none
  remediation_id : Option String := none
  action : Option String := none
  details : Option Arguments := none
  error : Option String := none
  rejected_by : Option String := none
  timestamp : Option Int := none
deriving DecidableEq

/-- Outcome of invoking one mock action handler (`_restart_service`, ...):
either the result dict it returns, or the message of the exception it
raises (caught by the `except Exception` clause of `execute`). -/
inductive HandlerOutcome where
  | ok (result : ExecResult)
  | raised (msg : String)
deriving DecidableEq

/-- The action-executor oracle: for a tool name and arguments, the outcome
of the corresponding handler body.  The handlers are external-collaborator
behaviour (spec section 1); the orchestrator drives them through this
interface. -/
def Handler : Type := String → Arguments → HandlerOutcome

/-- One entry of `remediation_history`: the record dict built in
`execute` and mutated by `approve_remediation` / `reject_remediation`. -/
structure RemediationRecord where
  remediation_id : String
  tool : String
  arguments : Arguments
  status : String
  timestamp : Int
  require_approval : Bool
  result : Option ExecResult := none
  error : Option String := none
  completed_at : Option Int := none
  failed_at : Option Int := none
  approved_by : Option String := none
  approved_at : Option Int := none
  rejected_by : Option String := none
  rejected_at : Option Int := none
  rejection_reason : Option String := none
deriving DecidableEq

/-- The mutable state of a `RemediationTool` instance: the four policy
fields read from `RemediationConfig` in `__init__`, and the in-process
history ledger. -/
structure RemediationTool where
  require_approval : Bool
  max_retries : Nat
  rollback_on_failure : Bool
  allowed_actions : List String
  remediation_history : List RemediationRecord
deriving DecidableEq

/-- The seven tool names dispatched by the if/elif chain of `execute`
(remediation.py lines 278 to 291). -/
def known_remediation_tools : List String :=
  ["remediate_restart_service", "remediate_scale_up", "remediate_scale_down",
   "remediate_clear_cache", "remediate_update_config", "remediate_restart_pod",
   "remediate_kill_process"]

/-- The policy gate of `execute` (remediation.py line 243):
`if self.allowed_actions and action_type not in self.allowed_actions`.
An empty list is falsy in Python, so an empty `allowed_actions` never
rejects. -/
def policy_rejects (allowed_actions : List String) (action_type : String) : Bool :=
  !allowed_actions.isEmpty && !(allowed_actions.contains action_type)

/-- Result of one call to `execute`: the new tool state, the returned
result dict, and the sequence of action-handler invocations performed
during the call (the executor trace). -/
structure ExecOut where
  state : RemediationTool
  result : ExecResult
  invocations : List (String × Arguments)
deriving DecidableEq

/-- Embedding of `RemediationTool.execute` (remediation.py lines 228-317).
Control flow, in source order: the allowed-actions gate (returns a
`rejected` dict with no record), record creation in `pending`, the
approval gate (stores the record as `awaiting_approval` and returns), the
handler dispatch inside `try` (the unknown-tool arm builds an error dict
without invoking any handler), the append of the record with the result
status, and the `except` arm that appends a `failed` record. -/
def RemediationTool.execute (H : Handler) (self : RemediationTool) (now : Int)
    (tool_name : String) (arguments : Arguments) : ExecOut :=
  let action_type := pyReplace tool_name "remediate_" ""
  if policy_rejects self.allowed_actions action_type then
    { state := self,
      result := { status := "rejected",
                  reason := some ("Action " ++ squote ++ action_type ++ squote ++
                                  " not in allowed actions list"),
                  timestamp := some now },
      invocations := [] }
  else
    let remediation_id := "REM-" ++ toString now
    let record : RemediationRecord :=
      { remediation_id := remediation_id, tool := tool_name,
        arguments := arguments, status := "pending", timestamp := now,
        require_approval := self.require_approval }
    if self.require_approval then
      let stored := { record with status := "awaiting_approval" }
      { state := { self with remediation_history :=
                     self.remediation_history ++ [stored] },
        result := { status := "awaiting_approval",
                    remediation_id := some remediation_id,
                    message := some "Remediation action requires approval before execution",
                    action := some tool_name,
                    details := some arguments,
                    timestamp := some now },
        invocations := [] }
    else if known_remediation_tools.contains tool_name then
      match H tool_name arguments with
      | .ok r =>
        let stored := { record with status := r.status, result := some r, completed_at := some now }
        { state := { self with remediation_history :=
                       self.remediation_history ++ [stored] },
          result := r,
          invocations := [(tool_name, arguments)] }
      | .raised msg =>
        let stored := { record with status := "failed", error := some msg, failed_at := some now }
        { state := { self with remediation_history :=
                       self.remediation_history ++ [stored] },
          result := { status := "failed", remediation_id := some remediation_id,
                      error := some msg, timestamp := some now },
          invocations := [(tool_name, arguments)] }
    else
      let r : ExecResult :=
        { status := "error",
          message := some ("Unknown remediation tool: " ++ tool_name) }
      let stored := { record with status := r.status, result := some r, completed_at := some now }
      { state := { self with remediation_history :=
                     self.remediation_history ++ [stored] },
        result := r,
        invocations := [] }

/-- The record-lookup loop shared by `approve_remediation` and
`reject_remediation`: first history entry with the given id, or none. -/
def findRecord (remediation_id : String) : List RemediationRecord → Option RemediationRecord
  | [] => none
  | r :: rs =>
    if r.remediation_id == remediation_id then some r
    else findRecord remediation_id rs

/-- In-place mutation of the first history entry with the given id,
embedding a Python dict mutation through the alias found by the lookup
loop. -/
def updateFirst (remediation_id : String) (f : RemediationRecord → RemediationRecord) :
    List RemediationRecord → List RemediationRecord
  | [] => []
  | r :: rs =>
    if r.remediation_id == remediation_id then f r :: rs
    else r :: updateFirst remediation_id f rs

/-- The record mutation performed at remediation.py lines 597-599: mark
the aliased record approved. -/
def approvedMark (now : Int) (approved_by : String) (r : RemediationRecord) : RemediationRecord :=
  { r with status := "approved", approved_by := some approved_by, approved_at := some now }

/-- The record mutation performed at remediation.py lines 607-608: set the
aliased record to completed with the re-execution result, regardless of
that result. -/
def completedMark (result : ExecResult) (r : RemediationRecord) : RemediationRecord :=
  { r with status := "completed", result := some result }

/-- Embedding of `RemediationTool.approve_remediation` (remediation.py
lines 565-611).  Looks up the record; on a missing id or a status other
than `awaiting_approval` it returns an error dict without touching any
state.  Otherwise it marks the record approved, temporarily clears
`require_approval`, re-runs `execute` with the stored tool and arguments,
then unconditionally sets the record status to `completed` with the
returned result and restores `require_approval` (the `finally` clause). -/
def RemediationTool.approve_remediation (H : Handler) (self : RemediationTool)
    (now : Int) (remediation_id approved_by : String) : ExecOut :=
  match findRecord remediation_id self.remediation_history with
  | none =>
    { state := self,
      result := { status := "error",
                  message := some ("Remediation " ++ remediation_id ++ " not found") },
      invocations := [] }
  | some record =>
    if record.status ≠ "awaiting_approval" then
      { state := self,
        result := { status := "error",
                    message := some ("Remediation " ++ remediation_id ++
                                     " is not awaiting approval (status: " ++
                                     record.status ++ ")") },
        invocations := [] }
    else
      let hist1 := updateFirst remediation_id (approvedMark now approved_by) self.remediation_history
      let self1 : RemediationTool :=
        { self with remediation_history := hist1, require_approval := false }
      let out := RemediationTool.execute H self1 now record.tool record.arguments
      let hist2 := updateFirst remediation_id (completedMark out.result) out.state.remediation_history
      let finalState := { out.state with remediation_history := hist2, require_approval := self.require_approval }
      { state := finalState, result := out.result, invocations := out.invocations }

/-- Embedding of `RemediationTool.reject_remediation` (remediation.py
lines 613-656): same lookup and status guard as approval; on success the
record is mutated to `rejected` and a confirmation dict is returned. -/
def RemediationTool.reject_remediation (self : RemediationTool) (now : Int)
    (remediation_id rejected_by reason : String) : ExecOut :=
  match findRecord remediation_id self.remediation_history with
  | none =>
    { state := self,
      result := { status := "error",
                  message := some ("Remediation " ++ remediation_id ++ " not found") },
      invocations := [] }
  | some record =>
    if record.status ≠ "awaiting_approval" then
      { state := self,
        result := { status := "error",
                    message := some ("Remediation " ++ remediation_id ++
                                     " is not awaiting approval") },
        invocations := [] }
    else
      let markRejected : RemediationRecord → RemediationRecord := fun r =>
        { r with status := "rejected", rejected_by := some rejected_by,
                 rejected_at := some now, rejection_reason := some reason }
      { state := { self with remediation_history :=
                     updateFirst remediation_id markRejected self.remediation_history },
        result := { status := "rejected", remediation_id := some remediation_id,
                    rejected_by := some rejected_by, reason := some reason,
                    timestamp := some now },
        invocations := [] }

/-- Embedding of `RemediationTool.register_action` (remediation.py lines
541-551): appends `action.get("name")` to `allowed_actions` when the name
is present and truthy (a missing key or empty string is falsy in Python). -/
def RemediationTool.register_action (self : RemediationTool) (action : Arguments) :
    RemediationTool :=
  match lookupArg action "name" with
  | some action_name =>
    if action_name = "" then self
    else { self with allowed_actions := self.allowed_actions ++ [action_name] }
  | none => self

/-- The `RemediationConfig` defaults of config.py lines 46-60, as loaded by
`RemediationTool.__init__`. -/
def defaultRemediationTool : RemediationTool :=
  { require_approval := true, max_retries := 3, rollback_on_failure := true,
    allowed_actions := ["restart_service", "scale_up", "scale_down",
                        "clear_cache", "restart_pod"],
    remediation_history := [] }

/-- One entry of `rollback_history` (rollback.py lines 240-248).  The id
fields are optional because the source stores `args.get(...)` results,
which may be missing. -/
structure RollbackRecord where
  rollback_id : String
  remediation_id : Option String
  reason : Option String
  status : String
  timestamp : Int
deriving DecidableEq

/-- One entry of `state_snapshots` (rollback.py lines 436-452).
`retention_until` embeds `metadata.retention_until`, computed as the
capture time plus `history_retention_days`; the constant mock `state`
payload is not modelled. -/
structure Snapshot where
  snapshot_id : String
  resource_uri : Option String
  timestamp : Int
  description : String
  retention_until : Int
deriving DecidableEq

/-- The mutable state of a `RollbackTool` instance: the `RollbackConfig`
fields read in `__init__`, the rollback history, and the snapshot dict. -/
structure RollbackTool where
  enabled : Bool
  history_retention_days : Int
  auto_rollback : Bool
  rollback_history : List RollbackRecord
  state_snapshots : List (String × Snapshot)
deriving DecidableEq

/-- Python dict assignment `d[k] = v`: replace the binding when the key is
present, append it otherwise (insertion order preserved, as in CPython). -/
def dictInsert (k : String) (v : α) : List (String × α) → List (String × α)
  | [] => [(k, v)]
  | (k2, v2) :: rest =>
    if k2 == k then (k, v) :: rest else (k2, v2) :: dictInsert k v rest

/-- Python `d.get(k)`: first binding of the key, if any. -/
def dictLookup (k : String) : List (String × α) → Option α
  | [] => none
  | (k2, v) :: rest => if k2 == k then some v else dictLookup k rest

/-- The result dict of a rollback-tool call.  Absent keys are `none`. -/
structure RollbackResult where
  status : String
  rollback_id : Option String := none
  remediation_id : Option String := none
  snapshot_id : Option String := none
  resource_uri : Option String := none
  reason : Option String := none
  message : Option String := none
deriving DecidableEq

/-- Embedding of `RollbackTool._rollback_remediation` (rollback.py lines
226-265).  The source never looks up the remediation (its lookup is an
unimplemented TODO) and ignores the extracted `force` flag: it always
appends a `completed` rollback record for whatever id it was given and
returns success. -/
def RollbackTool.rollback_remediation (self : RollbackTool) (now : Int)
    (args : Arguments) : RollbackTool × RollbackResult :=
  let remediation_id := lookupArg args "remediation_id"
  let reason := lookupArg args "reason"
  let rollback_record : RollbackRecord :=
    { rollback_id := "RB-" ++ toString now, remediation_id := remediation_id,
      reason := reason, status := "completed", timestamp := now }
  ({ self with rollback_history := self.rollback_history ++ [rollback_record] },
   { status := "completed", rollback_id := some rollback_record.rollback_id,
     remediation_id := remediation_id, reason := reason,
     message := some ("Successfully rolled back remediation " ++ pyStr remediation_id) })

/-- Embedding of `RollbackTool.auto_rollback_on_failure` (rollback.py lines
519-546): skipped when `auto_rollback` is false, otherwise delegates to
`rollback_remediation` with a derived reason.  The source passes
`force=False`, which `rollback_remediation` ignores. -/
def RollbackTool.auto_rollback_on_failure (self : RollbackTool) (now : Int)
    (remediation_id failure_reason : String) : RollbackTool × RollbackResult :=
  if self.auto_rollback = false then
    (self, { status := "skipped", message := some "Auto-rollback is disabled",
             remediation_id := some remediation_id })
  else
    self.rollback_remediation now
      [("remediation_id", remediation_id),
       ("reason", "Auto-rollback due to failure: " ++ failure_reason)]

/-- Embedding of `RollbackTool._create_snapshot` (rollback.py lines
425-464): always succeeds, stores the snapshot under `snap-<now>` with
`retention_until = now + history_retention_days` (from
`timedelta(days=self.history_retention_days)`), and returns a completed
result. -/
def RollbackTool.create_snapshot (self : RollbackTool) (now : Int)
    (args : Arguments) : RollbackTool × RollbackResult :=
  let resource_uri := lookupArg args "resource_uri"
  let description := (lookupArg args "description").getD "Manual snapshot"
  let snapshot_id := "snap-" ++ toString now
  let snapshot : Snapshot :=
    { snapshot_id := snapshot_id, resource_uri := resource_uri, timestamp := now,
      description := description,
      retention_until := now + self.history_retention_days }
  ({ self with state_snapshots := dictInsert snapshot_id snapshot self.state_snapshots },
   { status := "completed", snapshot_id := some snapshot_id,
     resource_uri := resource_uri,
     message := some ("Successfully created snapshot " ++ snapshot_id) })

/-- The snapshot value stored by `create_snapshot` for a given state,
instant and argument dict (rollback.py lines 436-452). -/
def capturedSnapshot (self : RollbackTool) (now : Int) (args : Arguments) : Snapshot :=
  { snapshot_id := "snap-" ++ toString now, resource_uri := lookupArg args "resource_uri",
    timestamp := now, description := (lookupArg args "description").getD "Manual snapshot",
    retention_until := now + self.history_retention_days }

/-- Embedding of `RollbackTool.get_snapshot` (rollback.py lines 478-488):
`self.state_snapshots.get(snapshot_id)`. -/
def RollbackTool.get_snapshot (self : RollbackTool) (snapshot_id : String) :
    Option Snapshot :=
  dictLookup snapshot_id self.state_snapshots

/-- Embedding of `RollbackTool.cleanup_old_snapshots` (rollback.py lines
490-517): removes every snapshot whose capture timestamp is strictly
before `now - history_retention_days` and reports the number removed. -/
def RollbackTool.cleanup_old_snapshots (self : RollbackTool) (now : Int) :
    RollbackTool × Nat :=
  let cutoff_date := now - self.history_retention_days
  let kept := self.state_snapshots.filter (fun kv => !(kv.2.timestamp < cutoff_date))
  ({ self with state_snapshots := kept },
   self.state_snapshots.length - kept.length)

/-- Embedding of `RollbackTool.execute` (rollback.py lines 183-224): the
disabled guard, then dispatch by tool name.  The four read-only branches
(`rollback_config`, `rollback_deployment`, `rollback_scale`,
`rollback_list_available`) return constant mock payloads and never change
tool state; they are collapsed into one state-preserving arm, and the
status-less dict of the unknown-tool arm is represented with an empty
status. -/
def RollbackTool.execute (self : RollbackTool) (now : Int)
    (tool_name : String) (args : Arguments) : RollbackTool × RollbackResult :=
  if self.enabled = false then
    (self, { status := "error", message := some "Rollback operations are disabled" })
  else if tool_name == "rollback_remediation" then
    self.rollback_remediation now args
  else if tool_name == "rollback_create_snapshot" then
    self.create_snapshot now args
  else if tool_name == "rollback_config" || tool_name == "rollback_deployment" ||
          tool_name == "rollback_scale" || tool_name == "rollback_list_available" then
    (self, { status := "completed" })
  else
    (self, { status := "", message := some ("Unknown rollback tool: " ++ tool_name) })

/-- The `RollbackConfig` defaults of config.py lines 63-67, as loaded by
`RollbackTool.__init__`. -/
def defaultRollbackTool : RollbackTool :=
  { enabled := true, history_retention_days := 7, auto_rollback := true,
    rollback_history := [], state_snapshots := [] }

/-- The two orchestrator-relevant tool instances held by the MCP server
(server.py lines 62-63). -/
structure SHIMServer where
  remediation_tool : RemediationTool
  rollback_tool : RollbackTool
deriving DecidableEq

/-- The payload of a routed `call_tool` response (server.py lines 130-160).
The diagnostics branch belongs to a read-only collaborator outside the
orchestrator (spec section 1) and is represented by a marker. -/
inductive CallResult where
  | diagnostics
  | remediation (r : ExecResult)
  | rollback (r : RollbackResult)
  | unknownTool (msg : String)
deriving DecidableEq

/-- Embedding of the `call_tool` routing of server.py lines 130-160:
prefix dispatch to the diagnostics, remediation or rollback tool; any
other name raises `ValueError`, caught and returned as an error payload.
The remediation branch returns the executor invocations it performed. -/
def SHIMServer.call_tool (H : Handler) (self : SHIMServer) (now : Int)
    (name : String) (arguments : Arguments) :
    SHIMServer × CallResult × List (String × Arguments) :=
  if "diagnose_".toList.isPrefixOf name.toList then
    (self, CallResult.diagnostics, [])
  else if "remediate_".toList.isPrefixOf name.toList then
    let o := self.remediation_tool.execute H now name arguments
    ({ self with remediation_tool := o.state }, CallResult.remediation o.result,
     o.invocations)
  else if "rollback_".toList.isPrefixOf name.toList then
    let o := self.rollback_tool.execute now name arguments
    ({ self with rollback_tool := o.1 }, CallResult.rollback o.2, [])
  else
    (self, CallResult.unknownTool ("Unknown tool: " ++ name), [])

/-- The externally callable operations of the remediation orchestrator,
each carrying the wall-clock instant at which it runs. -/
inductive Op where
  | submit (now : Int) (tool_name : String) (arguments : Arguments)
  | approve (now : Int) (remediation_id approved_by : String)
  | reject (now : Int) (remediation_id rejected_by reason : String)
  | register (action : Arguments)
deriving DecidableEq

/-- Whether an operation is an approval call. -/
def Op.isApprove : Op → Bool
  | .approve _ _ _ => true
  | _ => false

/-- Whether an operation is a custom-action registration. -/
def Op.isRegister : Op → Bool
  | .register _ => true
  | _ => false

/-- Run one operation against the tool; returns the new tool state and the
executor invocations performed during the call. -/
def runOp (H : Handler) (s : RemediationTool) : Op → RemediationTool × List (String × Arguments)
  | .submit now tool_name arguments =>
    let o := s.execute H now tool_name arguments
    (o.state, o.invocations)
  | .approve now remediation_id approved_by =>
    let o := s.approve_remediation H now remediation_id approved_by
    (o.state, o.invocations)
  | .reject now remediation_id rejected_by reason =>
    let o := s.reject_remediation now remediation_id rejected_by reason
    (o.state, o.invocations)
  | .register action => (s.register_action action, [])

/-- Run a sequence of operations, concatenating the executor traces. -/
def runOps (H : Handler) : RemediationTool → List Op → RemediationTool × List (String × Arguments)
  | s, [] => (s, [])
  | s, op :: ops =>
    let o := runOp H s op
    let rest := runOps H o.1 ops
    (rest.1, o.2 ++ rest.2)

/-- A handler oracle under which every action body returns a completed
result, matching the mock bodies of remediation.py. -/
def happyHandler : Handler := fun _ _ => HandlerOutcome.ok { status := "completed" }

/-- A handler oracle under which every action body raises, standing for an
executor failure (for example `_restart_pod` raising `AttributeError` when
`pod_name` is absent). -/
def failingHandler : Handler := fun _ _ => HandlerOutcome.raised "simulated executor failure"

def noApprovalTool : RemediationTool :=
  { require_approval := false, max_retries := 3, rollback_on_failure := true,
    allowed_actions := [], remediation_history := [] }

def approvalTool : RemediationTool :=
  { require_approval := true, max_retries := 3, rollback_on_failure := true,
    allowed_actions := [], remediation_history := [] }

/-- A tool state with a non-empty allowed-actions policy that excludes
`restart_service`. -/
def restrictedTool : RemediationTool :=
  { require_approval := true, max_retries := 3, rollback_on_failure := true,
    allowed_actions := ["scale_up"], remediation_history := [] }

/-- A history record that has already reached a terminal status, for
exercising the approval guards. -/
def completedRecord : RemediationRecord :=
  { remediation_id := "REM-1", tool := "remediate_restart_service", arguments := [],
    status := "completed", timestamp := 0, require_approval := false }

/-- A tool state whose ledger holds one already-completed record. -/
def completedHistoryTool : RemediationTool :=
  { require_approval := true, max_retries := 3, rollback_on_failure := true,
    allowed_actions := [], remediation_history := [completedRecord] }

/-- A server whose remediation tool executes immediately (no approval) with
automatic rollback nominally enabled on both sides. -/
def failureServer : SHIMServer :=
  { remediation_tool := noApprovalTool, rollback_tool := defaultRollbackTool }

/-- A record stored by an approval-gated submit, still awaiting approval. -/
def awaitingRecord : RemediationRecord :=
  { remediation_id := "REM-1", tool := "remediate_restart_service",
    arguments := [("resource_uri", "r1")], status := "awaiting_approval",
    timestamp := 1, require_approval := true }

/-- A tool state whose ledger holds one record awaiting approval. -/
def awaitingTool : RemediationTool :=
  { require_approval := true, max_retries := 3, rollback_on_failure := true,
    allowed_actions := [], remediation_history := [awaitingRecord] }

/-! General lemmas about the embedded operations. -/

/-- Every branch of `execute` leaves the state unchanged except for
appending at most one record to the history ledger. -/
theorem execute_state_shape (H : Handler) (s : RemediationTool) (now : Int)
    (tool_name : String) (arguments : Arguments) :
    ∃ tail, (RemediationTool.execute H s now tool_name arguments).state =
      { s with remediation_history := s.remediation_history ++ tail } := by
  unfold RemediationTool.execute
  dsimp only
  split
  · exact ⟨[], by simp⟩
  · split
    · exact ⟨_, rfl⟩
    · split
      · split
        · exact ⟨_, rfl⟩
        · exact ⟨_, rfl⟩
      · exact ⟨_, rfl⟩

/-- `execute` never changes the loaded `max_retries` policy field. -/
theorem execute_max_retries (H : Handler) (s : RemediationTool) (now : Int)
    (tool_name : String) (arguments : Arguments) :
    (RemediationTool.execute H s now tool_name arguments).state.max_retries = s.max_retries := by
  obtain ⟨t, ht⟩ := execute_state_shape H s now tool_name arguments
  rw [ht]

/-- `execute` never changes the loaded `rollback_on_failure` policy field. -/
theorem execute_rollback_on_failure (H : Handler) (s : RemediationTool) (now : Int)
    (tool_name : String) (arguments : Arguments) :
    (RemediationTool.execute H s now tool_name arguments).state.rollback_on_failure
      = s.rollback_on_failure := by
  obtain ⟨t, ht⟩ := execute_state_shape H s now tool_name arguments
  rw [ht]

/-- `execute` never changes the loaded `require_approval` policy field. -/
theorem execute_require_approval (H : Handler) (s : RemediationTool) (now : Int)
    (tool_name : String) (arguments : Arguments) :
    (RemediationTool.execute H s now tool_name arguments).state.require_approval
      = s.require_approval := by
  obtain ⟨t, ht⟩ := execute_state_shape H s now tool_name arguments
  rw [ht]

/-- `execute` never changes the loaded `allowed_actions` policy field. -/
theorem execute_allowed_actions (H : Handler) (s : RemediationTool) (now : Int)
    (tool_name : String) (arguments : Arguments) :
    (RemediationTool.execute H s now tool_name arguments).state.allowed_actions
      = s.allowed_actions := by
  obtain ⟨t, ht⟩ := execute_state_shape H s now tool_name arguments
  rw [ht]

/-- With approval required, `execute` performs no handler invocation and
preserves the approval flag. -/
theorem execute_no_invocation_of_approval (H : Handler) (s : RemediationTool) (now : Int)
    (tool_name : String) (arguments : Arguments) (h : s.require_approval = true) :
    (RemediationTool.execute H s now tool_name arguments).invocations = [] ∧
    (RemediationTool.execute H s now tool_name arguments).state.require_approval = true := by
  refine ⟨?_, by rw [execute_require_approval]; exact h⟩
  unfold RemediationTool.execute
  dsimp only
  split
  · rfl
  · simp [h]

/-- When the policy gate rejects the action, `execute` returns a rejected
result and leaves the state untouched. -/
theorem execute_policy_rejected (H : Handler) (s : RemediationTool) (now : Int)
    (tool_name : String) (arguments : Arguments)
    (hp : policy_rejects s.allowed_actions (pyReplace tool_name "remediate_" "") = true) :
    (RemediationTool.execute H s now tool_name arguments).state = s ∧
    (RemediationTool.execute H s now tool_name arguments).result.status = "rejected" ∧
    (RemediationTool.execute H s now tool_name arguments).invocations = [] := by
  unfold RemediationTool.execute
  simp [hp]

/-- When the policy gate passes and approval is off, `execute` appends
exactly one record to the ledger. -/
theorem execute_appends_one (H : Handler) (s : RemediationTool) (now : Int)
    (tool_name : String) (arguments : Arguments)
    (hp : policy_rejects s.allowed_actions (pyReplace tool_name "remediate_" "") = false)
    (ha : s.require_approval = false) :
    (RemediationTool.execute H s now tool_name arguments).state.remediation_history.length
      = s.remediation_history.length + 1 := by
  unfold RemediationTool.execute
  dsimp only
  rw [hp]
  simp only [Bool.false_eq_true, if_false, ha]
  by_cases hk : known_remediation_tools.contains tool_name = true
  · rw [if_pos hk]
    cases H tool_name arguments <;> simp
  · rw [if_neg hk]
    simp

/-- `reject_remediation` performs no handler invocation and changes, at
most, history entries. -/
theorem reject_state_shape (s : RemediationTool) (now : Int)
    (remediation_id rejected_by reason : String) :
    (s.reject_remediation now remediation_id rejected_by reason).invocations = [] ∧
    ∃ hist, (s.reject_remediation now remediation_id rejected_by reason).state =
      { s with remediation_history := hist } := by
  unfold RemediationTool.reject_remediation
  split
  · exact ⟨rfl, s.remediation_history, by simp⟩
  · split
    · exact ⟨rfl, s.remediation_history, by simp⟩
    · exact ⟨rfl, _, rfl⟩

/-- `register_action` changes, at most, the `allowed_actions` list. -/
theorem register_action_shape (s : RemediationTool) (action : Arguments) :
    ∃ acts, s.register_action action = { s with allowed_actions := acts } := by
  unfold RemediationTool.register_action
  split
  · split
    · exact ⟨s.allowed_actions, by simp⟩
    · exact ⟨_, rfl⟩
  · exact ⟨s.allowed_actions, by simp⟩

/-- `approve_remediation` preserves every policy field (the source mutates
`require_approval` during the nested call but restores it in `finally`). -/
theorem approve_policy_fields (H : Handler) (s : RemediationTool) (now : Int)
    (remediation_id approved_by : String) :
    (s.approve_remediation H now remediation_id approved_by).state.max_retries = s.max_retries ∧
    (s.approve_remediation H now remediation_id approved_by).state.rollback_on_failure
      = s.rollback_on_failure ∧
    (s.approve_remediation H now remediation_id approved_by).state.require_approval
      = s.require_approval ∧
    (s.approve_remediation H now remediation_id approved_by).state.allowed_actions
      = s.allowed_actions := by
  unfold RemediationTool.approve_remediation
  dsimp only
  split
  · exact ⟨rfl, rfl, rfl, rfl⟩
  · split
    · exact ⟨rfl, rfl, rfl, rfl⟩
    · refine ⟨?_, ?_, rfl, ?_⟩
      · rw [execute_max_retries]
      · rw [execute_rollback_on_failure]
      · rw [execute_allowed_actions]

/-- A non-approval operation performs no handler invocation when approval
is required, and keeps approval required. -/
theorem runOp_no_invocation_of_approval (H : Handler) (s : RemediationTool) (op : Op)
    (h : s.require_approval = true) (hop : op.isApprove = false) :
    (runOp H s op).2 = [] ∧ (runOp H s op).1.require_approval = true := by
  cases op with
  | submit now tool_name arguments =>
    exact execute_no_invocation_of_approval H s now tool_name arguments h
  | approve now remediation_id approved_by => simp [Op.isApprove] at hop
  | reject now remediation_id rejected_by reason =>
    obtain ⟨hinv, hist, hstate⟩ := reject_state_shape s now remediation_id rejected_by reason
    refine ⟨hinv, ?_⟩
    show (s.reject_remediation now remediation_id rejected_by reason).state.require_approval = true
    rw [hstate]
    exact h
  | register action =>
    obtain ⟨acts, hstate⟩ := register_action_shape s action
    exact ⟨rfl, by dsimp [runOp]; rw [hstate]; exact h⟩

/-- An approval-free operation sequence performs no handler invocation when
approval is required at the start. -/
theorem runOps_no_invocation_of_approval (H : Handler) (ops : List Op) (s : RemediationTool)
    (h : s.require_approval = true) (hops : ∀ op ∈ ops, op.isApprove = false) :
    (runOps H s ops).2 = [] := by
  induction ops generalizing s with
  | nil => rfl
  | cons op rest ih =>
    have h1 := runOp_no_invocation_of_approval H s op h (hops op (by simp))
    dsimp only [runOps]
    rw [h1.1, List.nil_append]
    exact ih (runOp H s op).1 h1.2 (fun o ho => hops o (by simp [ho]))

/-- Record lookup distributes over a list append: a hit in the prefix wins. -/
theorem findRecord_append_left (remediation_id : String)
    (xs ys : List RemediationRecord) (v : RemediationRecord)
    (h : findRecord remediation_id xs = some v) :
    findRecord remediation_id (xs ++ ys) = some v := by
  induction xs with
  | nil => simp [findRecord] at h
  | cons r rs ih =>
    by_cases hr : (r.remediation_id == remediation_id) = true
    · simp only [findRecord, hr, if_true] at h ⊢
      exact h
    · simp only [findRecord, hr, if_false, Bool.false_eq_true] at h ⊢
      exact ih h

/-- Mutating the first record with an id that preserves record ids commutes
with the lookup loop. -/
theorem findRecord_updateFirst (remediation_id : String)
    (f : RemediationRecord → RemediationRecord)
    (hid : ∀ r, (f r).remediation_id = r.remediation_id)
    (xs : List RemediationRecord) :
    findRecord remediation_id (updateFirst remediation_id f xs)
      = (findRecord remediation_id xs).map f := by
  induction xs with
  | nil => rfl
  | cons r rs ih =>
    by_cases hr : (r.remediation_id == remediation_id) = true
    · have hfr : ((f r).remediation_id == remediation_id) = true := by
        rw [hid r]; exact hr
      simp [updateFirst, findRecord, hr, hfr]
    · simp only [updateFirst, findRecord, hr, if_false, Bool.false_eq_true]
      exact ih

/-- `updateFirst` never changes the ledger length. -/
theorem updateFirst_length (remediation_id : String)
    (f : RemediationRecord → RemediationRecord) (xs : List RemediationRecord) :
    (updateFirst remediation_id f xs).length = xs.length := by
  induction xs with
  | nil => rfl
  | cons r rs ih =>
    by_cases hr : (r.remediation_id == remediation_id) = true
    · simp [updateFirst, hr]
    · simp [updateFirst, hr, ih]

/-- `approvedMark` keeps the record id. -/
theorem approvedMark_id (now : Int) (approved_by : String) (r : RemediationRecord) :
    (approvedMark now approved_by r).remediation_id = r.remediation_id := rfl

/-- `completedMark` keeps the record id. -/
theorem completedMark_id (result : ExecResult) (r : RemediationRecord) :
    (completedMark result r).remediation_id = r.remediation_id := rfl

/-- A key absent from the whole dict is absent from any filtered dict. -/
theorem dictLookup_filter_none {α : Type} (k : String) (p : String × α → Bool)
    (xs : List (String × α)) (h : dictLookup k xs = none) :
    dictLookup k (xs.filter p) = none := by
  induction xs with
  | nil => rfl
  | cons kv rest ih =>
    obtain ⟨k2, v⟩ := kv
    by_cases hk : (k2 == k) = true
    · simp [dictLookup, hk] at h
    · have h2 : dictLookup k rest = none := by
        simpa [dictLookup, hk] using h
      by_cases hp : p (k2, v) = true
      · simp [List.filter_cons, hp, dictLookup, hk, ih h2]
      · simp [List.filter_cons, hp, ih h2]

/-- Inserting a fresh key appends the binding at the end, as in CPython. -/
theorem dictInsert_of_fresh {α : Type} (k : String) (v : α)
    (xs : List (String × α)) (h : dictLookup k xs = none) :
    dictInsert k v xs = xs ++ [(k, v)] := by
  induction xs with
  | nil => rfl
  | cons kv rest ih =>
    obtain ⟨k2, v2⟩ := kv
    by_cases hk : (k2 == k) = true
    · simp [dictLookup, hk] at h
    · have h2 : dictLookup k rest = none := by
        simpa [dictLookup, hk] using h
      simp [dictInsert, hk, ih h2]

/-- Lookup skips a prefix that does not hold the key. -/
theorem dictLookup_append_right {α : Type} (k : String)
    (xs ys : List (String × α)) (h : dictLookup k xs = none) :
    dictLookup k (xs ++ ys) = dictLookup k ys := by
  induction xs with
  | nil => rfl
  | cons kv rest ih =>
    obtain ⟨k2, v⟩ := kv
    by_cases hk : (k2 == k) = true
    · simp [dictLookup, hk] at h
    · have h2 : dictLookup k rest = none := by
        simpa [dictLookup, hk] using h
      simp only [List.cons_append, dictLookup, hk, if_false, Bool.false_eq_true]
      exact ih h2

/-! Claim theorems. -/

/-- C1: the claim states that on executor failure the orchestrator retries
with the same arguments up to `maxRetries` additional times, appending each
attempt.  The code never consults `max_retries`: at a concrete failing
input with `max_retries = 3` the executor is invoked exactly once, a single
record with status `failed` (and no attempts sequence) is appended, and no
retry happens. -/
theorem c1_single_attempt_no_retry :
    noApprovalTool.max_retries = 3 ∧
    (noApprovalTool.execute failingHandler 0 "remediate_restart_service"
        [("resource_uri", "r1"), ("reason", "oom")]).invocations.length = 1 ∧
    (noApprovalTool.execute failingHandler 0 "remediate_restart_service"
        [("resource_uri", "r1"), ("reason", "oom")]).result.status = "failed" ∧
    (noApprovalTool.execute failingHandler 0 "remediate_restart_service"
        [("resource_uri", "r1"), ("reason", "oom")]).state.remediation_history.map
      (fun r => r.status) = ["failed"] := by
  decide

/-- C2: the claim states that when all attempts fail with
`rollbackOnFailure` true, a `RollbackRecord` referencing the remediation
exists after the call.  In the code the remediation flow never invokes the
rollback tool: after a failing submit routed through the server, the
remediation record is `failed` but the rollback history is still empty,
although both rollback flags are enabled and `auto_rollback_on_failure`
would append a record if it were ever invoked. -/
theorem c2_failure_triggers_no_rollback_record :
    failureServer.remediation_tool.rollback_on_failure = true ∧
    failureServer.rollback_tool.auto_rollback = true ∧
    ((failureServer.call_tool failingHandler 0 "remediate_restart_service"
        [("resource_uri", "r1"), ("reason", "oom")]).1.remediation_tool.remediation_history.map
      (fun r => r.status) = ["failed"]) ∧
    (failureServer.call_tool failingHandler 0 "remediate_restart_service"
        [("resource_uri", "r1"), ("reason", "oom")]).1.rollback_tool.rollback_history = [] ∧
    ((defaultRollbackTool.auto_rollback_on_failure 0 "REM-0" "executor failure").1.rollback_history.map
      (fun r => r.remediation_id) = [some "REM-0"]) := by
  decide

/-- C3 counterexample: submitting an action that resolves to no known tool
grows the history ledger, contradicting the claim that no record is
created. -/
theorem c3_counterexample_ledger_grows :
    (noApprovalTool.execute happyHandler 0 "remediate_bogus" []).state.remediation_history.length
      ≠ noApprovalTool.remediation_history.length := by
  decide

/-- C3 (amended): for a request whose action name resolves to no known
tool, when the policy gate passes and approval is not required, `execute`
returns an error result naming the unknown tool, but a record is appended
with status `error`: the ledger grows by exactly one. -/
theorem c3_unknown_action_appends_record (H : Handler) (s : RemediationTool) (now : Int)
    (tool_name : String) (arguments : Arguments)
    (hk : tool_name ∉ known_remediation_tools)
    (hp : policy_rejects s.allowed_actions (pyReplace tool_name "remediate_" "") = false)
    (ha : s.require_approval = false) :
    (RemediationTool.execute H s now tool_name arguments).result.status = "error" ∧
    (RemediationTool.execute H s now tool_name arguments).result.message
      = some ("Unknown remediation tool: " ++ tool_name) ∧
    (RemediationTool.execute H s now tool_name arguments).state.remediation_history.length
      = s.remediation_history.length + 1 ∧
    ((RemediationTool.execute H s now tool_name arguments).state.remediation_history.map
      (fun r => r.status)) = s.remediation_history.map (fun r => r.status) ++ ["error"] := by
  unfold RemediationTool.execute
  dsimp only
  rw [hp]
  simp only [Bool.false_eq_true, if_false, ha]
  rw [if_neg (by simpa using hk)]
  simp

/-- C3 witness: the amended claim at a concrete unknown action. -/
theorem c3_witness :
    (noApprovalTool.execute happyHandler 0 "remediate_bogus" []).result.status = "error" ∧
    (noApprovalTool.execute happyHandler 0 "remediate_bogus" []).state.remediation_history.length
      = noApprovalTool.remediation_history.length + 1 := by
  have h := c3_unknown_action_appends_record happyHandler noApprovalTool 0 "remediate_bogus" []
    (by decide) (by decide) (by decide)
  exact ⟨h.1, h.2.2.1⟩

/-- C4 counterexample: with a non-empty allowed-actions list excluding the
action, the call returns a result dict with status `rejected` but creates
no record at all: the history ledger stays empty, so no record with status
`rejected_by_policy` exists. -/
theorem c4_counterexample_no_policy_record :
    (restrictedTool.execute happyHandler 0 "remediate_restart_service"
        [("resource_uri", "r1"), ("reason", "oom")]).state.remediation_history = [] ∧
    (restrictedTool.execute happyHandler 0 "remediate_restart_service"
        [("resource_uri", "r1"), ("reason", "oom")]).result.status = "rejected" := by
  decide

/-- C4 (amended): when `allowed_actions` is non-empty and excludes the
action, `execute` returns immediately with a `rejected` result carrying the
policy-violation reason, the state (so also the ledger) is unchanged, no
record is created, and no executor invocation occurs; an empty
`allowed_actions` list never triggers the policy gate. -/
theorem c4_policy_rejection_creates_no_record (H : Handler) (s : RemediationTool) (now : Int)
    (tool_name : String) (arguments : Arguments)
    (h1 : s.allowed_actions ≠ [])
    (h2 : pyReplace tool_name "remediate_" "" ∉ s.allowed_actions) :
    (RemediationTool.execute H s now tool_name arguments).result.status = "rejected" ∧
    (RemediationTool.execute H s now tool_name arguments).result.reason
      = some ("Action " ++ squote ++ pyReplace tool_name "remediate_" "" ++ squote ++
              " not in allowed actions list") ∧
    (RemediationTool.execute H s now tool_name arguments).state = s ∧
    (RemediationTool.execute H s now tool_name arguments).invocations = [] ∧
    (∀ action_type : String, policy_rejects [] action_type = false) := by
  have h0 : s.allowed_actions.isEmpty = false := by
    cases hl : s.allowed_actions with
    | nil => exact absurd hl h1
    | cons x xs => rfl
  have hp : policy_rejects s.allowed_actions (pyReplace tool_name "remediate_" "") = true := by
    simp [policy_rejects, h0, h2]
  obtain ⟨hstate, hstatus, hinv⟩ :=
    execute_policy_rejected H s now tool_name arguments hp
  refine ⟨hstatus, ?_, hstate, hinv, ?_⟩
  · unfold RemediationTool.execute
    simp [hp]
  · intro action_type
    simp [policy_rejects]

/-- C4 witness: the amended claim at a concrete excluded action. -/
theorem c4_witness :
    (restrictedTool.execute happyHandler 0 "remediate_restart_service" []).result.status
      = "rejected" ∧
    (restrictedTool.execute happyHandler 0 "remediate_restart_service" []).state
      = restrictedTool ∧
    (restrictedTool.execute happyHandler 0 "remediate_restart_service" []).invocations = [] := by
  have h := c4_policy_rejection_creates_no_record happyHandler restrictedTool 0
    "remediate_restart_service" [] (by decide) (by decide)
  exact ⟨h.1, h.2.2.1, h.2.2.2.1⟩

/-- C5: the claim states that rollback of a missing remediation fails with
NotFound and rollback of an ineligible one fails with InvalidState.  The
lookup is an unimplemented TODO in the source: rolling back a nonexistent
id succeeds with status `completed` and appends a rollback record
referencing that id, with no state check whatsoever (the extracted `force`
flag is ignored). -/
theorem c5_stub_rollback_always_succeeds :
    (defaultRollbackTool.rollback_remediation 0
        [("remediation_id", "REM-nonexistent"), ("reason", "manual check")]).2.status
      = "completed" ∧
    ((defaultRollbackTool.rollback_remediation 0
        [("remediation_id", "REM-nonexistent"), ("reason", "manual check")]).1.rollback_history.map
      (fun r => r.remediation_id)) = [some "REM-nonexistent"] ∧
    ((defaultRollbackTool.rollback_remediation 0
        [("remediation_id", "REM-nonexistent"), ("reason", "manual check")]).1.rollback_history.map
      (fun r => r.status)) = ["completed"] := by
  decide

/-- C6: with `require_approval` true (and the policy gate passing), a
submit stores the record as `awaiting_approval` and returns without any
executor invocation; moreover, over any operation sequence that contains
no approve call, no executor invocation ever happens, so execution is
reached only through an intervening approval. -/
theorem c6_no_execution_without_approval :
    (∀ (H : Handler) (s : RemediationTool) (now : Int) (tool_name : String) (arguments : Arguments),
       s.require_approval = true →
       policy_rejects s.allowed_actions (pyReplace tool_name "remediate_" "") = false →
       (RemediationTool.execute H s now tool_name arguments).invocations = [] ∧
       (RemediationTool.execute H s now tool_name arguments).result.status = "awaiting_approval" ∧
       (RemediationTool.execute H s now tool_name arguments).state.remediation_history.map
         (fun r => r.status)
         = s.remediation_history.map (fun r => r.status) ++ ["awaiting_approval"]) ∧
    (∀ (H : Handler) (s : RemediationTool) (ops : List Op),
       s.require_approval = true →
       (∀ op ∈ ops, op.isApprove = false) →
       (runOps H s ops).2 = []) := by
  constructor
  · intro H s now tool_name arguments h hp
    refine ⟨(execute_no_invocation_of_approval H s now tool_name arguments h).1, ?_, ?_⟩
    · unfold RemediationTool.execute
      dsimp only
      rw [hp]
      simp [h]
    · unfold RemediationTool.execute
      dsimp only
      rw [hp]
      simp [h]
  · intro H s ops h hops
    exact runOps_no_invocation_of_approval H ops s h hops

/-- C6 witness: a concrete approval-gated submit followed by a rejection
performs no executor invocation. -/
theorem c6_witness :
    (approvalTool.execute happyHandler 1 "remediate_restart_service" []).result.status
      = "awaiting_approval" ∧
    (runOps happyHandler approvalTool
      [Op.submit 1 "remediate_restart_service" [], Op.reject 2 "REM-1" "opA" "too risky"]).2
      = [] := by
  constructor
  · exact (c6_no_execution_without_approval.1 happyHandler approvalTool 1
      "remediate_restart_service" [] rfl (by decide)).2.1
  · exact c6_no_execution_without_approval.2 happyHandler approvalTool
      [Op.submit 1 "remediate_restart_service" [], Op.reject 2 "REM-1" "opA" "too risky"]
      rfl (by decide)

/-- C7: approving a missing id returns a not-found error and leaves the
state untouched; approving a record whose status is not
`awaiting_approval` returns an invalid-state error naming that status and
leaves the state (hence every record status) untouched.  The code signals
both failures as error dicts whose messages distinguish the two cases. -/
theorem c7_approve_guards :
    (∀ (H : Handler) (s : RemediationTool) (now : Int) (remediation_id approved_by : String),
       findRecord remediation_id s.remediation_history = none →
       (s.approve_remediation H now remediation_id approved_by).state = s ∧
       (s.approve_remediation H now remediation_id approved_by).result.status = "error" ∧
       (s.approve_remediation H now remediation_id approved_by).result.message
         = some ("Remediation " ++ remediation_id ++ " not found")) ∧
    (∀ (H : Handler) (s : RemediationTool) (now : Int) (remediation_id approved_by : String)
       (r : RemediationRecord),
       findRecord remediation_id s.remediation_history = some r →
       r.status ≠ "awaiting_approval" →
       (s.approve_remediation H now remediation_id approved_by).state = s ∧
       (s.approve_remediation H now remediation_id approved_by).result.status = "error" ∧
       (s.approve_remediation H now remediation_id approved_by).result.message
         = some ("Remediation " ++ remediation_id ++ " is not awaiting approval (status: "
                 ++ r.status ++ ")")) := by
  constructor
  · intro H s now remediation_id approved_by hf
    unfold RemediationTool.approve_remediation
    rw [hf]
    exact ⟨rfl, rfl, rfl⟩
  · intro H s now remediation_id approved_by r hf hs
    unfold RemediationTool.approve_remediation
    rw [hf]
    dsimp only
    rw [if_pos hs]
    exact ⟨rfl, rfl, rfl⟩

/-- C7 witness: approving an already-completed record and a missing id at
concrete inputs. -/
theorem c7_witness :
    (completedHistoryTool.approve_remediation happyHandler 9 "REM-1" "alice").state
      = completedHistoryTool ∧
    (completedHistoryTool.approve_remediation happyHandler 9 "REM-1" "alice").result.status
      = "error" ∧
    (completedHistoryTool.approve_remediation happyHandler 9 "REM-2" "alice").result.message
      = some ("Remediation " ++ "REM-2" ++ " not found") := by
  have h2 := c7_approve_guards.2 happyHandler completedHistoryTool 9 "REM-1" "alice"
    completedRecord (by decide) (by decide)
  have h1 := c7_approve_guards.1 happyHandler completedHistoryTool 9 "REM-2" "alice" (by decide)
  exact ⟨h2.1, h2.2.1, h1.2.2⟩

/-- C8 counterexample: `register_action` appends to the `allowed_actions`
policy list, so the policy is not read-only after startup. -/
theorem c8_counterexample_register_mutates_policy :
    (defaultRemediationTool.register_action [("name", "purge_queue")]).allowed_actions
      ≠ defaultRemediationTool.allowed_actions := by
  decide

/-- C8 (amended): no operation changes `max_retries` or
`rollback_on_failure`, and every operation restores `require_approval` by
the time it returns (approval clears it only inside the nested call);
however `register_action` mutates `allowed_actions`, which every other
operation preserves. -/
theorem c8_policy_fields_amended (H : Handler) (s : RemediationTool) (op : Op) :
    (runOp H s op).1.max_retries = s.max_retries ∧
    (runOp H s op).1.rollback_on_failure = s.rollback_on_failure ∧
    (runOp H s op).1.require_approval = s.require_approval ∧
    (op.isRegister = false → (runOp H s op).1.allowed_actions = s.allowed_actions) := by
  cases op with
  | submit now tool_name arguments =>
    obtain ⟨t, ht⟩ := execute_state_shape H s now tool_name arguments
    dsimp only [runOp]
    rw [ht]
    exact ⟨rfl, rfl, rfl, fun _ => rfl⟩
  | approve now remediation_id approved_by =>
    have h := approve_policy_fields H s now remediation_id approved_by
    exact ⟨h.1, h.2.1, h.2.2.1, fun _ => h.2.2.2⟩
  | reject now remediation_id rejected_by reason =>
    obtain ⟨hinv, hist, hstate⟩ := reject_state_shape s now remediation_id rejected_by reason
    dsimp only [runOp]
    rw [hstate]
    exact ⟨rfl, rfl, rfl, fun _ => rfl⟩
  | register action =>
    obtain ⟨acts, hstate⟩ := register_action_shape s action
    dsimp only [runOp]
    rw [hstate]
    exact ⟨rfl, rfl, rfl, fun hfalse => by simp [Op.isRegister] at hfalse⟩

/-- C8 witness: the amended preservation at a concrete submit. -/
theorem c8_witness :
    (runOp happyHandler defaultRemediationTool
        (Op.submit 0 "remediate_restart_service" [])).1.require_approval
      = defaultRemediationTool.require_approval ∧
    (runOp happyHandler defaultRemediationTool
        (Op.submit 0 "remediate_restart_service" [])).1.allowed_actions
      = defaultRemediationTool.allowed_actions := by
  have h := c8_policy_fields_amended happyHandler defaultRemediationTool
    (Op.submit 0 "remediate_restart_service" [])
  exact ⟨h.2.2.1, h.2.2.2 (by decide)⟩

/-- C9: capturing a snapshot always succeeds, assigns an expiry equal to
the capture instant plus the retention period, and the snapshot is
retrievable through `get_snapshot`; a sweep run while the retention period
has not yet elapsed keeps it retrievable, and once it has elapsed the
sweep removes it and `get_snapshot` returns nothing.  The freshness
hypothesis says the derived snapshot id is not already a key of the store,
which holds whenever capture instants are distinct. -/
theorem c9_snapshot_retention (s : RollbackTool) (now : Int) (args : Arguments)
    (hfresh : dictLookup ("snap-" ++ toString now) s.state_snapshots = none) :
    (s.create_snapshot now args).2.status = "completed" ∧
    (s.create_snapshot now args).2.snapshot_id = some ("snap-" ++ toString now) ∧
    (capturedSnapshot s now args).retention_until = now + s.history_retention_days ∧
    (s.create_snapshot now args).1.get_snapshot ("snap-" ++ toString now)
      = some (capturedSnapshot s now args) ∧
    (∀ now2 : Int, now2 - now ≤ s.history_retention_days →
       ((s.create_snapshot now args).1.cleanup_old_snapshots now2).1.get_snapshot
         ("snap-" ++ toString now) = some (capturedSnapshot s now args)) ∧
    (∀ now2 : Int, s.history_retention_days < now2 - now →
       ((s.create_snapshot now args).1.cleanup_old_snapshots now2).1.get_snapshot
         ("snap-" ++ toString now) = none) := by
  have hsnaps : (s.create_snapshot now args).1.state_snapshots
      = s.state_snapshots ++ [("snap-" ++ toString now, capturedSnapshot s now args)] := by
    unfold RollbackTool.create_snapshot capturedSnapshot
    dsimp only
    exact dictInsert_of_fresh _ _ _ hfresh
  refine ⟨rfl, rfl, rfl, ?_, ?_, ?_⟩
  · unfold RollbackTool.get_snapshot
    rw [hsnaps, dictLookup_append_right _ _ _ hfresh]
    simp [dictLookup]
  · intro now2 h2
    have hts : ¬(now < now2 - s.history_retention_days) := by omega
    unfold RollbackTool.cleanup_old_snapshots RollbackTool.get_snapshot
    dsimp only
    have hrd : (s.create_snapshot now args).1.history_retention_days
        = s.history_retention_days := rfl
    rw [hrd, hsnaps, List.filter_append]
    have hsingle : List.filter
        (fun kv => !decide (kv.2.timestamp < now2 - s.history_retention_days))
        [("snap-" ++ toString now, capturedSnapshot s now args)]
        = [("snap-" ++ toString now, capturedSnapshot s now args)] := by
      simp [List.filter_cons, capturedSnapshot, hts]
    rw [hsingle,
        dictLookup_append_right _ _ _ (dictLookup_filter_none _ _ _ hfresh)]
    simp [dictLookup]
  · intro now2 h2
    have hts : now < now2 - s.history_retention_days := by omega
    unfold RollbackTool.cleanup_old_snapshots RollbackTool.get_snapshot
    dsimp only
    have hrd : (s.create_snapshot now args).1.history_retention_days
        = s.history_retention_days := rfl
    rw [hrd, hsnaps, List.filter_append]
    have hsingle : List.filter
        (fun kv => !decide (kv.2.timestamp < now2 - s.history_retention_days))
        [("snap-" ++ toString now, capturedSnapshot s now args)] = [] := by
      simp [List.filter_cons, capturedSnapshot, hts]
    rw [hsingle, List.append_nil]
    exact dictLookup_filter_none _ _ _ hfresh

/-- C9 witness: a concrete capture at day 0 with the default 7-day
retention survives a sweep at day 7 and is gone after a sweep at day 8. -/
theorem c9_witness :
    (defaultRollbackTool.create_snapshot 0 [("resource_uri", "infra://r1")]).2.status
      = "completed" ∧
    ((defaultRollbackTool.create_snapshot 0
        [("resource_uri", "infra://r1")]).1.cleanup_old_snapshots 7).1.get_snapshot
      ("snap-" ++ toString (0 : Int))
      = some (capturedSnapshot defaultRollbackTool 0 [("resource_uri", "infra://r1")]) ∧
    ((defaultRollbackTool.create_snapshot 0
        [("resource_uri", "infra://r1")]).1.cleanup_old_snapshots 8).1.get_snapshot
      ("snap-" ++ toString (0 : Int)) = none := by
  have h := c9_snapshot_retention defaultRollbackTool 0 [("resource_uri", "infra://r1")]
    (by decide)
  exact ⟨h.1, h.2.2.2.2.1 7 (by decide), h.2.2.2.2.2 8 (by decide)⟩

/-- C10 counterexample: submit under approval with an empty (hence
permissive) allowed list, then register a custom action (making the list
non-empty and excluding the stored action), then approve.  The approval
sets the original record to `completed` although the re-execution was
rejected by policy, and the ledger holds exactly one entry, not two. -/
theorem c10_counterexample_single_entry :
    ((((approvalTool.execute happyHandler 1 "remediate_restart_service"
        [("resource_uri", "r1"), ("reason", "oom")]).state.register_action
        [("name", "scale_up")]).approve_remediation happyHandler 2 "REM-1" "opA").result.status
      = "rejected") ∧
    ((((approvalTool.execute happyHandler 1 "remediate_restart_service"
        [("resource_uri", "r1"), ("reason", "oom")]).state.register_action
        [("name", "scale_up")]).approve_remediation happyHandler 2 "REM-1"
        "opA").state.remediation_history.map (fun r => r.status) = ["completed"]) ∧
    ((((approvalTool.execute happyHandler 1 "remediate_restart_service"
        [("resource_uri", "r1"), ("reason", "oom")]).state.register_action
        [("name", "scale_up")]).approve_remediation happyHandler 2 "REM-1"
        "opA").state.remediation_history.length = 1) := by
  decide

/-- C10 (amended): after `approve_remediation` finds a record awaiting
approval, it always sets that record to `completed` and returns the
re-execution result, whatever its status; the re-execution appends a
second ledger entry (with an id derived from the approval instant) exactly
when the current allowed-actions policy admits the stored action, and
appends nothing when the re-execution is policy-rejected. -/
theorem c10_approve_completion_amended (H : Handler) (s : RemediationTool) (now : Int)
    (remediation_id approved_by : String) (r : RemediationRecord)
    (hf : findRecord remediation_id s.remediation_history = some r)
    (hs : r.status = "awaiting_approval") :
    ((findRecord remediation_id
        (s.approve_remediation H now remediation_id approved_by).state.remediation_history).map
      (fun x => x.status) = some "completed") ∧
    (policy_rejects s.allowed_actions (pyReplace r.tool "remediate_" "") = true →
       (s.approve_remediation H now remediation_id approved_by).state.remediation_history.length
         = s.remediation_history.length ∧
       (s.approve_remediation H now remediation_id approved_by).result.status = "rejected") ∧
    (policy_rejects s.allowed_actions (pyReplace r.tool "remediate_" "") = false →
       (s.approve_remediation H now remediation_id approved_by).state.remediation_history.length
         = s.remediation_history.length + 1) := by
  have hcond : ¬(r.status ≠ "awaiting_approval") := by simp [hs]
  unfold RemediationTool.approve_remediation
  rw [hf]
  dsimp only
  rw [if_neg hcond]
  dsimp only
  have h1 : findRecord remediation_id
      (updateFirst remediation_id (approvedMark now approved_by) s.remediation_history)
      = some (approvedMark now approved_by r) := by
    rw [findRecord_updateFirst remediation_id _ (approvedMark_id now approved_by), hf]
    rfl
  obtain ⟨t, ht⟩ := execute_state_shape H
    { s with remediation_history := updateFirst remediation_id (approvedMark now approved_by) s.remediation_history, require_approval := false }
    now r.tool r.arguments
  refine ⟨?_, ?_, ?_⟩
  · rw [findRecord_updateFirst remediation_id _ (completedMark_id _), ht]
    dsimp only
    rw [findRecord_append_left remediation_id _ t _ h1]
    rfl
  · intro hp
    obtain ⟨hst, hres, _⟩ := execute_policy_rejected H
      { s with remediation_history := updateFirst remediation_id (approvedMark now approved_by) s.remediation_history, require_approval := false }
      now r.tool r.arguments hp
    constructor
    · rw [updateFirst_length, hst]
      exact updateFirst_length _ _ _
    · exact hres
  · intro hp
    have hlen := execute_appends_one H
      { s with remediation_history := updateFirst remediation_id (approvedMark now approved_by) s.remediation_history, require_approval := false }
      now r.tool r.arguments hp rfl
    rw [updateFirst_length, hlen]
    dsimp only
    rw [updateFirst_length]

/-- C10 witness: the amended behaviour at a concrete awaiting record whose
action the (empty, hence permissive) policy admits: the original record is
completed and a second entry is appended. -/
theorem c10_witness :
    ((findRecord "REM-1"
        (awaitingTool.approve_remediation happyHandler 2 "REM-1" "opA").state.remediation_history).map
      (fun x => x.status) = some "completed") ∧
    (awaitingTool.approve_remediation happyHandler 2 "REM-1" "opA").state.remediation_history.length
      = awaitingTool.remediation_history.length + 1 := by
  have h := c10_approve_completion_amended happyHandler awaitingTool 2 "REM-1" "opA"
    awaitingRecord (by decide) (by decide)
  exact ⟨h.1, h.2.2 (by decide)⟩

end SHIM
